import Mathlib

/-!
Verification development for the Odoo→Shopify one-directional inventory
synchronizer (`src/odoo_shopify_connector`).  The Python code is shallowly
embedded: pure fragments become Lean functions; the network collaborators
(Odoo fetch, Shopify GraphQL lookups and mutations, snapshot persistence)
become explicit oracle parameters, and the calls made to them are recorded
in traces so that "no downstream call" properties are statable.  Python
`int` is `Int`, `float` quantities are `Rat` (truncated with `Int.tdiv`,
matching Python `int()` truncation toward zero), Python `dict` is an
association list built with insert-or-overwrite semantics.
-/

/-- Python `int(q)` for a float/Decimal-like quantity: truncation toward
zero, which for a rational is `num tdiv den`. -/
def pyInt (q : Rat) : Int := Int.tdiv q.num q.den

/-- `models.OdooStockQuant`: one stock record fetched from Odoo.
`quantity` is a Python float (pydantic `ge=0`), embedded as `Rat`. -/
structure OdooStockQuant where
  product_id : Int
  product_name : String
  sku : String
  quantity : Rat
  location_id : Int
deriving DecidableEq

/-- `models.SnapshotProduct`: one product inside the persisted snapshot.
`last_updated` is a datetime, embedded as an abstract `Nat` tick. -/
structure SnapshotProduct where
  sku : String
  quantity : Int
  product_name : String
  product_id : Int
  last_updated : Nat
deriving DecidableEq

/-- `models.SyncSnapshot`: the persisted snapshot.  The Python `products`
dict is an association list whose keys are unique in every snapshot the
code itself writes (Python dict invariant). -/
structure SyncSnapshot where
  last_sync_timestamp : Nat
  total_products : Int
  products : List (String × SnapshotProduct)
deriving DecidableEq

/-- `models.ChangeDetectionResult`. -/
structure ChangeDetectionResult where
  new_products : List OdooStockQuant
  modified_products : List OdooStockQuant
  deleted_skus : List String
  unchanged_products : Nat
  total_changes : Nat
deriving DecidableEq

/-- `models.SyncResult`: one per-SKU outcome row. -/
structure SyncResult where
  success : Bool
  message : String
  sku : Option String
  quantity_updated : Option Int
  delta : Option Int
deriving DecidableEq

/-- `models.BulkInventoryAdjustment`. -/
structure BulkInventoryAdjustment where
  inventory_item_id : String
  available_delta : Int
  sku : Option String
deriving DecidableEq

/-- `models.BulkUpdateResult` (the `throttle_status` field is only logged
by the code and is omitted from the embedding). -/
structure BulkUpdateResult where
  success : Bool
  items_updated : Int
  items_failed : Int
  user_errors : List String
deriving DecidableEq

/-- `models.SyncSummary` (the wall-clock `total_time_seconds` field is not
modelled).  Counters are `Int` exactly as Python ints. -/
structure SyncSummary where
  total_products : Int
  successful : Int
  failed : Int
  skipped : Int
  unchanged : Int
  new : Int
  modified : Int
  deleted : Int
  results : List SyncResult
  bulk_mode : Bool
  total_batches : Int
  snapshot_updated : Bool
deriving DecidableEq

/-! ### Python dict as an association list -/

/-- Dict lookup `m[k]` / `k in m`: first binding of `k` (keys of a real
Python dict are unique, so "first" is "the" binding). -/
def dictFind (m : List (String × α)) (k : String) : Option α :=
  (m.find? (fun p => p.1 == k)).map Prod.snd

/-- Dict write `m[k] = v`: overwrite in place if `k` is present, else
append (Python dicts keep first-insertion order). -/
def insertDict (m : List (String × α)) (k : String) (v : α) : List (String × α) :=
  if (m.find? (fun p => p.1 == k)).isSome then
    m.map (fun p => if p.1 == k then (k, v) else p)
  else
    m ++ [(k, v)]

/-- Building a dict from a sequence of key/value pairs (`{f(x) for x in l}`
comprehensions and dict construction loops). -/
def buildDict (l : List (String × α)) : List (String × α) :=
  l.foldl (fun m e => insertDict m e.1 e.2) []

/-! ### `SnapshotService.compare_with_current` (the Change Detector) -/

/-- Loop branch `sku not in snapshot_map` of `compare_with_current`. -/
def isNewEntry (snapshot_map : List (String × SnapshotProduct))
    (e : String × OdooStockQuant) : Bool :=
  (dictFind snapshot_map e.1).isNone

/-- Loop branch `int(current.quantity) != snapshot_map[sku].quantity`. -/
def isModifiedEntry (snapshot_map : List (String × SnapshotProduct))
    (e : String × OdooStockQuant) : Bool :=
  match dictFind snapshot_map e.1 with
  | some sp => pyInt e.2.quantity != sp.quantity
  | none => false

/-- Loop branch `else: unchanged += 1`. -/
def isUnchangedEntry (snapshot_map : List (String × SnapshotProduct))
    (e : String × OdooStockQuant) : Bool :=
  match dictFind snapshot_map e.1 with
  | some sp => pyInt e.2.quantity == sp.quantity
  | none => false

/-- `SnapshotService.compare_with_current`.  The single Python loop over
`current_map.items()` appends each entry to exactly one of the three
buckets in iteration order, which is the same as the three filters below. -/
def compare_with_current (current_products : List OdooStockQuant)
    (snapshot : Option SyncSnapshot) : ChangeDetectionResult :=
  match snapshot with
  | none =>
      { new_products := current_products, modified_products := [],
        deleted_skus := [], unchanged_products := 0,
        total_changes := current_products.length }
  | some snap =>
      let current_map := buildDict (current_products.map (fun p => (p.sku, p)))
      let snapshot_map := snap.products
      let new_products := (current_map.filter (isNewEntry snapshot_map)).map Prod.snd
      let modified_products := (current_map.filter (isModifiedEntry snapshot_map)).map Prod.snd
      let unchanged := (current_map.filter (isUnchangedEntry snapshot_map)).length
      let deleted_skus := (snapshot_map.map Prod.fst).filter
        (fun sku => (dictFind current_map sku).isNone)
      { new_products := new_products, modified_products := modified_products,
        deleted_skus := deleted_skus, unchanged_products := unchanged,
        total_changes := new_products.length + modified_products.length + deleted_skus.length }

/-- The dict of `SnapshotProduct`s that `SnapshotService.save_snapshot`
writes for a product list (`{p.sku: SnapshotProduct(...) for p in products}`,
with `quantity=int(p.quantity)` and `last_updated=now`). -/
def save_snapshot_products (products : List OdooStockQuant) (now : Nat) :
    List (String × SnapshotProduct) :=
  buildDict (products.map (fun p =>
    (p.sku, { sku := p.sku, quantity := pyInt p.quantity,
              product_name := p.product_name, product_id := p.product_id,
              last_updated := now })))

/-- The `SyncSnapshot` value that a successful `save_snapshot` persists. -/
def save_snapshot_result (products : List OdooStockQuant) (now : Nat) : SyncSnapshot :=
  { last_sync_timestamp := now, total_products := products.length,
    products := save_snapshot_products products now }

/-! ### `ShopifyService.create_batches` (the Batcher) -/

/-- `ShopifyService.MAX_BATCH_SIZE`. -/
def MAX_BATCH_SIZE : Nat := 250

/-- `ShopifyService.MAX_RETRIES`. -/
def MAX_RETRIES : Nat := 4

/-- `ShopifyService.INITIAL_BACKOFF` (seconds). -/
def INITIAL_BACKOFF : Nat := 1

/-- The slicing loop `for i in range(0, len(adjustments), batch_size)` of
`create_batches`: each step takes the next `batch_size`-slice.  The fuel
argument starts at the list length, which bounds the number of loop steps
whenever `batch_size > 0`. -/
def chunkLoop (fuel : Nat) (l : List BulkInventoryAdjustment) (batch_size : Nat) :
    List (List BulkInventoryAdjustment) :=
  match fuel, l with
  | 0, _ => []
  | _, [] => []
  | fuel + 1, l@(_ :: _) => l.take batch_size :: chunkLoop fuel (l.drop batch_size) batch_size

/-- `ShopifyService.create_batches` (with the default
`batch_size = MAX_BATCH_SIZE` made explicit).  Python's `range` with step 0
raises `ValueError`; the embedding returns `[]` there and every claim about
batching assumes a positive size. -/
def create_batches (adjustments : List BulkInventoryAdjustment)
    (batch_size : Nat) : List (List BulkInventoryAdjustment) :=
  if batch_size = 0 then [] else chunkLoop adjustments.length adjustments batch_size

/-! ### `ShopifyService._run_query`: retry/backoff skeleton

One attempt of the `requests.post` call is abstracted as an
`AttemptOutcome`; the oracle `attempt : Nat → AttemptOutcome` gives the
outcome of the k-th HTTP attempt.  The embedding records the backoff
sleeps performed and mirrors the `total_api_calls` / `total_retries`
counters of the service. -/

/-- Outcome of one HTTP attempt: either a response with a status code and
a parsed JSON body (`errors` is the optional GraphQL `errors` list, each
error rendered with `str(err)`), or a `requests.RequestException`. -/
inductive AttemptOutcome
  | response (status : Nat) (errors : Option (List String)) (payload : String)
  | netError (msg : String)
deriving DecidableEq

/-- The two exception types `_run_query` can raise. -/
inductive QueryError
  | rateLimitExceeded
  | shopifyGraphQLError
deriving DecidableEq

deriving instance DecidableEq for Except

/-- Result of `_run_query` plus instrumentation: the backoff sleeps issued
(in seconds, in order), and the `total_api_calls` / `total_retries`
increments it performed. -/
structure RunQueryOut where
  result : Except QueryError String
  sleeps : List Nat
  apiCalls : Nat
  retries : Nat
deriving DecidableEq

/-- `needle` occurs as a contiguous substring of `hay`. -/
def charsInfix (needle : List Char) : List Char → Bool
  | [] => needle.isEmpty
  | c :: rest => needle.isPrefixOf (c :: rest) || charsInfix needle rest

/-- `'throttled' in str(err).lower()`. -/
def throttledIn (err : String) : Bool :=
  charsInfix "throttled".toList (err.toList.map Char.toLower)

/-- The recursion of `_run_query`, structural on the remaining retry
budget `MAX_RETRIES - retry_count`; the guard `retry_count < MAX_RETRIES`
of the source is exactly `budget > 0`. -/
def runQueryLoop (attempt : Nat → AttemptOutcome) :
    Nat → Nat → RunQueryOut
  | budget, rc =>
    let retryOr : RunQueryOut → RunQueryOut :=
      fun noRetry =>
        match budget with
        | b + 1 =>
            let out := runQueryLoop attempt b (rc + 1)
            { result := out.result,
              sleeps := INITIAL_BACKOFF * 2 ^ rc :: out.sleeps,
              apiCalls := out.apiCalls + 1, retries := out.retries + 1 }
        | 0 => noRetry
    match attempt rc with
    | .netError _ =>
        retryOr { result := .error .shopifyGraphQLError, sleeps := [], apiCalls := 1, retries := 0 }
    | .response status errors payload =>
        if status == 429 then
          retryOr { result := .error .rateLimitExceeded, sleeps := [], apiCalls := 1, retries := 0 }
        else if 400 ≤ status then
          if 500 ≤ status then
            retryOr { result := .error .shopifyGraphQLError, sleeps := [], apiCalls := 1, retries := 0 }
          else
            { result := .error .shopifyGraphQLError, sleeps := [], apiCalls := 1, retries := 0 }
        else
          match errors with
          | some es =>
              if es.any throttledIn then
                retryOr { result := .error .shopifyGraphQLError, sleeps := [], apiCalls := 1, retries := 0 }
              else
                { result := .error .shopifyGraphQLError, sleeps := [], apiCalls := 1, retries := 0 }
          | none =>
              { result := .ok payload, sleeps := [], apiCalls := 1, retries := 0 }

/-- `ShopifyService._run_query attempt retry_count`. -/
def run_query (attempt : Nat → AttemptOutcome) (retry_count : Nat) : RunQueryOut :=
  runQueryLoop attempt (MAX_RETRIES - retry_count) retry_count

/-- An attempt outcome on which `_run_query` retries (429, 5xx, a
throttled GraphQL error, or a network-level exception). -/
def retryableOutcome : AttemptOutcome → Bool
  | .netError _ => true
  | .response status errors _ =>
      status == 429 || 500 ≤ status ||
        (decide (status < 400) && match errors with
          | some es => es.any throttledIn
          | none => false)

/-- An attempt outcome on which `_run_query` must fail at once: a non-429
client error (4xx), or a GraphQL `errors` body with no throttling signal. -/
def immediateErrorOutcome : AttemptOutcome → Bool
  | .netError _ => false
  | .response status errors _ =>
      (decide (400 ≤ status) && decide (status < 500) && !(status == 429)) ||
        (decide (status < 400) && match errors with
          | some es => !(es.any throttledIn)
          | none => false)

/-! ### `SnapshotService.load_snapshot`

The file's JSON-parsed content is a `JVal`; Python exceptions raised while
reshaping it are tracked explicitly, because the source catches only
`(json.JSONDecodeError, KeyError, ValueError)` — a `TypeError` or
`AttributeError` escapes the handler. -/

/-- A parsed JSON value (numbers restricted to integers, which is all the
snapshot format uses). -/
inductive JVal
  | jnull
  | jbool (b : Bool)
  | jnum (n : Int)
  | jstr (s : String)
  | jarr (elems : List JVal)
  | jobj (fields : List (String × JVal))

/-- The Python exception kinds relevant to `load_snapshot` (pydantic's
`ValidationError` is a `ValueError`). -/
inductive PyExc
  | jsonDecodeError
  | keyError
  | valueError
  | typeError
  | attributeError
deriving DecidableEq

/-- The `except (json.JSONDecodeError, KeyError, ValueError)` tuple. -/
def catchableExc : PyExc → Bool
  | .jsonDecodeError => true
  | .keyError => true
  | .valueError => true
  | .typeError => false
  | .attributeError => false

/-- Python subscript `v[k]` with a string key: `KeyError` on a dict
missing the key, `TypeError` on any non-dict. -/
def getItem (v : JVal) (k : String) : Except PyExc JVal :=
  match v with
  | .jobj fields =>
      match (fields.find? (fun p => p.1 == k)).map Prod.snd with
      | some x => .ok x
      | none => .error .keyError
  | _ => .error .typeError

/-- Python `v.items()`: `AttributeError` on any non-dict. -/
def itemsOf (v : JVal) : Except PyExc (List (String × JVal)) :=
  match v with
  | .jobj fields => .ok fields
  | _ => .error .attributeError

/-- `datetime.fromisoformat(v)` where `iso` decides which strings parse
(returning an abstract tick): `ValueError` on an unparsable string,
`TypeError` on a non-string. -/
def fromIso (iso : String → Option Nat) (v : JVal) : Except PyExc Nat :=
  match v with
  | .jstr s =>
      match iso s with
      | some t => .ok t
      | none => .error .valueError
  | _ => .error .typeError

/-- Pydantic validation of one snapshot product dict (after the loop has
already replaced `last_updated` with the parsed datetime `t`): a
`ValidationError` — a `ValueError` — on a missing or wrongly typed field. -/
def validateSnapshotProduct (t : Nat) (prod : JVal) : Except PyExc SnapshotProduct :=
  match prod with
  | .jobj pf =>
      match (pf.find? (fun p => p.1 == "sku")).map Prod.snd,
            (pf.find? (fun p => p.1 == "quantity")).map Prod.snd,
            (pf.find? (fun p => p.1 == "product_name")).map Prod.snd,
            (pf.find? (fun p => p.1 == "product_id")).map Prod.snd with
      | some (.jstr sku), some (.jnum q), some (.jstr name), some (.jnum pid) =>
          .ok { sku := sku, quantity := q, product_name := name,
                product_id := pid, last_updated := t }
      | _, _, _, _ => .error .valueError
  | _ => .error .valueError

/-- The body of the `try` block of `load_snapshot`, for a successfully
JSON-parsed file content `v`. -/
def load_snapshot_body (iso : String → Option Nat) (v : JVal) : Except PyExc SyncSnapshot := do
  let tsv ← getItem v "last_sync_timestamp"
  let ts ← fromIso iso tsv
  let prodsV ← getItem v "products"
  let fields ← itemsOf prodsV
  let withTimes ← fields.mapM (fun e => do
    let lu ← getItem e.2 "last_updated"
    let t ← fromIso iso lu
    pure (e.1, e.2, t))
  let totalV ← getItem v "total_products"
  let total ← match totalV with
    | .jnum n => Except.ok n
    | _ => Except.error PyExc.valueError
  let prods ← withTimes.mapM (fun e => do
    let sp ← validateSnapshotProduct e.2.2 e.2.1
    pure (e.1, sp))
  pure { last_sync_timestamp := ts, total_products := total, products := prods }

/-- `SnapshotService.load_snapshot` for an existing snapshot file.
`parsed` is the result of `json.load`: `none` when the text is not valid
JSON (`json.JSONDecodeError`).  The surrounding handler converts the
catchable exceptions to `none`; any other exception propagates. -/
def load_snapshot (iso : String → Option Nat) (parsed : Option JVal) :
    Except PyExc (Option SyncSnapshot) :=
  let body : Except PyExc SyncSnapshot :=
    match parsed with
    | none => .error .jsonDecodeError
    | some v => load_snapshot_body iso v
  match body with
  | .ok s => .ok (some s)
  | .error e => if catchableExc e then .ok none else .error e

/-! ### Remote Sync Executor and Orchestrators

`get_variant_data_by_sku`, `get_location_id` and the bulk mutation are
network calls; each is an oracle in `SyncEnv`.  Every Shopify request the
run makes is recorded as a `ShopCall`, and the batches the run builds are
exposed, so that call-free and batching properties can be stated. -/

/-- Outcome of `get_variant_data_by_sku(sku, location)`: the variant's
`inventory_item_id` and `current_quantity`, or no match, or a raised
exception (caught per item by the orchestrators). -/
inductive VariantLookup
  | found (inventory_item_id : String) (current_quantity : Int)
  | notFound
  | raised (msg : String)
deriving DecidableEq

/-- Outcome of the `inventoryBulkAdjustQuantityAtLocation` mutation run by
`_run_query` inside `bulk_adjust_inventory`: a response with the
`inventoryLevels` count and `userErrors` strings, or an exception
(`ShopifyGraphQLError` / `RateLimitExceeded` after retries exhaust). -/
inductive BulkCallOutcome
  | ok (levels : Nat) (user_errors : List String)
  | exc (msg : String)
deriving DecidableEq

/-- One Shopify request issued during a run. -/
inductive ShopCall
  | location
  | variantLookup (sku : String)
  | bulkMutation (adjustments : List BulkInventoryAdjustment)
deriving DecidableEq

/-- The collaborator oracles of one run. -/
structure SyncEnv where
  location : Option String
  lookup : String → VariantLookup
  bulkCall : List BulkInventoryAdjustment → BulkCallOutcome
  save_ok : Bool
  odoo_location : Int

/-- Result of `bulk_adjust_inventory`: either the Python `ValueError` for
an oversized batch, or a `BulkUpdateResult` plus the list of bulk
mutations actually sent over the network. -/
inductive BulkAdjustOut
  | raisedValueError
  | result (r : BulkUpdateResult) (netCalls : List (List BulkInventoryAdjustment))
deriving DecidableEq

/-- `ShopifyService.bulk_adjust_inventory`: rejects oversized batches,
filters out zero-delta adjustments, returns an all-success result with no
network call when nothing is left, otherwise dispatches one mutation and
converts an exception into a failed `BulkUpdateResult`. -/
def bulk_adjust_inventory (adjustments : List BulkInventoryAdjustment)
    (call : List BulkInventoryAdjustment → BulkCallOutcome) : BulkAdjustOut :=
  if MAX_BATCH_SIZE < adjustments.length then
    .raisedValueError
  else if adjustments.isEmpty then
    .result { success := true, items_updated := 0, items_failed := 0, user_errors := [] } []
  else
    let filtered_adjustments := adjustments.filter (fun adj => adj.available_delta != 0)
    if filtered_adjustments.isEmpty then
      .result { success := true, items_updated := 0, items_failed := 0, user_errors := [] } []
    else
      match call filtered_adjustments with
      | .ok levels user_errors =>
          .result { success := user_errors.isEmpty, items_updated := levels,
                    items_failed := (filtered_adjustments.length : Int) - levels,
                    user_errors := user_errors } [filtered_adjustments]
      | .exc msg =>
          .result { success := false, items_updated := 0,
                    items_failed := filtered_adjustments.length,
                    user_errors := [msg] } [filtered_adjustments]

/-- The bulk mutations a `bulk_adjust_inventory` outcome sent over the
network (none when the Python call raised before dispatching). -/
def netCallsOf : BulkAdjustOut → List (List BulkInventoryAdjustment)
  | .raisedValueError => []
  | .result _ netCalls => netCalls

/-- Accumulated output of the per-product preparation loop shared by
`sync_all_inventory_bulk` and `sync_all_inventory_bulk_with_changes`. -/
structure PrepOut where
  adjustments : List BulkInventoryAdjustment
  results : List SyncResult
  skipped : Int
  calls : List ShopCall
deriving DecidableEq

/-- The preparation loop: look up each product's SKU in Shopify; a miss or
a raised exception is recorded and skipped, a hit becomes an adjustment
with `delta = int(quantity) - current_quantity`. -/
def prepare_adjustments (lookup : String → VariantLookup) :
    List OdooStockQuant → PrepOut
  | [] => { adjustments := [], results := [], skipped := 0, calls := [] }
  | q :: rest =>
    let tail := prepare_adjustments lookup rest
    match lookup q.sku with
    | .found inventory_item_id current_quantity =>
        { tail with
          adjustments :=
            { inventory_item_id := inventory_item_id,
              available_delta := pyInt q.quantity - current_quantity,
              sku := some q.sku } :: tail.adjustments,
          calls := .variantLookup q.sku :: tail.calls }
    | .notFound =>
        { tail with
          results := { success := false, message := "SKU no encontrado en Shopify",
                       sku := some q.sku, quantity_updated := none, delta := none } :: tail.results,
          skipped := tail.skipped + 1,
          calls := .variantLookup q.sku :: tail.calls }
    | .raised msg =>
        { tail with
          results := { success := false, message := "Error al preparar: " ++ msg,
                       sku := some q.sku, quantity_updated := none, delta := none } :: tail.results,
          skipped := tail.skipped + 1,
          calls := .variantLookup q.sku :: tail.calls }

/-- Accumulated output of the per-batch processing loop. -/
structure BatchAcc where
  successful : Int
  failed : Int
  results : List SyncResult
  calls : List ShopCall
deriving DecidableEq

/-- Per-item result row appended for each adjustment of a batch whose
bulk result reports success. -/
def batchOkResult (adj : BulkInventoryAdjustment) : SyncResult :=
  { success := true, message := "Actualizado en batch", sku := adj.sku,
    quantity_updated := none, delta := some adj.available_delta }

/-- Per-item result row for each adjustment of a batch whose bulk result
reports failure (`user_errors` rendered into the message). -/
def batchErrResult (user_errors : List String) (adj : BulkInventoryAdjustment) : SyncResult :=
  { success := false, message := "Error en batch: " ++ String.intercalate "; " user_errors,
    sku := adj.sku, quantity_updated := none, delta := none }

/-- The batch-processing loop shared by both bulk orchestrators: each batch
goes through `bulk_adjust_inventory`; an exception escaping it is caught,
counts the whole batch as failed, and the loop continues. -/
def process_batches (call : List BulkInventoryAdjustment → BulkCallOutcome) :
    List (List BulkInventoryAdjustment) → BatchAcc
  | [] => { successful := 0, failed := 0, results := [], calls := [] }
  | batch :: rest =>
    let tail := process_batches call rest
    match bulk_adjust_inventory batch call with
    | .raisedValueError =>
        { successful := tail.successful,
          failed := (batch.length : Int) + tail.failed,
          results := batch.map (batchErrResult ["ValueError"]) ++ tail.results,
          calls := tail.calls }
    | .result r netCalls =>
        { successful := r.items_updated + tail.successful,
          failed := r.items_failed + tail.failed,
          results := batch.map (fun adj =>
            if r.success then batchOkResult adj else batchErrResult r.user_errors adj)
            ++ tail.results,
          calls := netCalls.map ShopCall.bulkMutation ++ tail.calls }

/-- Observable outcome of one orchestrated run: the returned summary, the
Shopify requests issued, the batches built, and whether `save_snapshot`
was invoked. -/
structure RunOut where
  summary : SyncSummary
  calls : List ShopCall
  batches : List (List BulkInventoryAdjustment)
  saved : Bool
deriving DecidableEq

/-- `SyncService.sync_all_inventory_bulk` (no change detection), given the
already-fetched Odoo inventory.  `Except.error` models an exception
propagating to the caller (here only `get_location_id` failing). -/
def sync_all_inventory_bulk (stock_quants : List OdooStockQuant)
    (env : SyncEnv) : Except String RunOut :=
  if stock_quants.isEmpty then
    .ok { summary := { total_products := 0, successful := 0, failed := 0, skipped := 0,
                       unchanged := 0, new := 0, modified := 0, deleted := 0,
                       results := [], bulk_mode := true, total_batches := 0,
                       snapshot_updated := false },
          calls := [], batches := [], saved := false }
  else
    match env.location with
    | none => .error "ShopifyGraphQLError"
    | some _ =>
      let prep := prepare_adjustments env.lookup stock_quants
      if prep.adjustments.isEmpty then
        .ok { summary := { total_products := stock_quants.length, successful := 0,
                           failed := 0, skipped := prep.skipped,
                           unchanged := 0, new := 0, modified := 0, deleted := 0,
                           results := prep.results, bulk_mode := true, total_batches := 0,
                           snapshot_updated := false },
              calls := .location :: prep.calls, batches := [], saved := false }
      else
        let batches := create_batches prep.adjustments MAX_BATCH_SIZE
        let proc := process_batches env.bulkCall batches
        .ok { summary := { total_products := stock_quants.length,
                           successful := proc.successful, failed := proc.failed,
                           skipped := prep.skipped,
                           unchanged := 0, new := 0, modified := 0, deleted := 0,
                           results := prep.results ++ proc.results, bulk_mode := true,
                           total_batches := batches.length, snapshot_updated := false },
              calls := .location :: (prep.calls ++ proc.calls),
              batches := batches, saved := false }

/-- Lines 433–445 of `sync_all_inventory_bulk_with_changes`: the changed
products to push, with each deleted SKU re-materialised from the snapshot
at quantity 0. -/
def products_to_sync (changes : ChangeDetectionResult)
    (snapshot : Option SyncSnapshot) (odoo_location : Int) : List OdooStockQuant :=
  changes.new_products ++ changes.modified_products ++
    (match snapshot with
     | none => []
     | some snap =>
        changes.deleted_skus.filterMap (fun deleted_sku =>
          (dictFind snap.products deleted_sku).map (fun deleted_prod =>
            { product_id := deleted_prod.product_id,
              product_name := deleted_prod.product_name,
              sku := deleted_sku, quantity := 0,
              location_id := odoo_location })))

/-- `SyncService.sync_all_inventory_bulk_with_changes`, given the fetched
Odoo inventory and the loaded snapshot. -/
def sync_all_inventory_bulk_with_changes (stock_quants : List OdooStockQuant)
    (snapshot : Option SyncSnapshot) (env : SyncEnv) : Except String RunOut :=
  if stock_quants.isEmpty then
    .ok { summary := { total_products := 0, successful := 0, failed := 0, skipped := 0,
                       unchanged := 0, new := 0, modified := 0, deleted := 0,
                       results := [], bulk_mode := true, total_batches := 0,
                       snapshot_updated := false },
          calls := [], batches := [], saved := false }
  else
    let changes := compare_with_current stock_quants snapshot
    if changes.total_changes = 0 then
      .ok { summary := { total_products := stock_quants.length, successful := 0,
                         failed := 0, skipped := 0,
                         unchanged := changes.unchanged_products,
                         new := 0, modified := 0, deleted := 0,
                         results := [], bulk_mode := true, total_batches := 0,
                         snapshot_updated := false },
            calls := [], batches := [], saved := false }
    else
      let to_sync := products_to_sync changes snapshot env.odoo_location
      match env.location with
      | none => .error "ShopifyGraphQLError"
      | some _ =>
        let prep := prepare_adjustments env.lookup to_sync
        if prep.adjustments.isEmpty then
          .ok { summary := { total_products := stock_quants.length, successful := 0,
                             failed := prep.skipped, skipped := prep.skipped,
                             unchanged := changes.unchanged_products,
                             new := changes.new_products.length,
                             modified := changes.modified_products.length,
                             deleted := changes.deleted_skus.length,
                             results := prep.results, bulk_mode := true,
                             total_batches := 0, snapshot_updated := false },
                calls := .location :: prep.calls, batches := [], saved := false }
        else
          let batches := create_batches prep.adjustments MAX_BATCH_SIZE
          let proc := process_batches env.bulkCall batches
          .ok { summary := { total_products := stock_quants.length,
                             successful := proc.successful, failed := proc.failed,
                             skipped := prep.skipped,
                             unchanged := changes.unchanged_products,
                             new := changes.new_products.length,
                             modified := changes.modified_products.length,
                             deleted := changes.deleted_skus.length,
                             results := prep.results ++ proc.results, bulk_mode := true,
                             total_batches := batches.length,
                             snapshot_updated := env.save_ok },
                calls := .location :: (prep.calls ++ proc.calls),
                batches := batches, saved := true }

/-! ### Concrete fixtures used by witnesses and counterexamples -/

/-- The SKU list of a record list. -/
def currentSkus (current : List OdooStockQuant) : List String :=
  current.map OdooStockQuant.sku

/-- The SKU keys of an optional snapshot. -/
def snapKeys : Option SyncSnapshot → List String
  | none => []
  | some snap => snap.products.map Prod.fst

/-- Fixture record: SKU `A`, quantity 10. -/
def fixA10 : OdooStockQuant :=
  { product_id := 1, product_name := "Prod A", sku := "A", quantity := 10, location_id := 28 }

/-- Fixture record: SKU `B`, quantity 7. -/
def fixB7 : OdooStockQuant :=
  { product_id := 2, product_name := "Prod B", sku := "B", quantity := 7, location_id := 28 }

/-- Fixture record: SKU `C`, quantity 3. -/
def fixC3 : OdooStockQuant :=
  { product_id := 3, product_name := "Prod C", sku := "C", quantity := 3, location_id := 28 }

/-- Fixture record: SKU `A`, quantity 6. -/
def fixA6 : OdooStockQuant :=
  { product_id := 1, product_name := "Prod A", sku := "A", quantity := 6, location_id := 28 }

/-- Fixture record: SKU `A`, quantity 5. -/
def fixA5 : OdooStockQuant :=
  { product_id := 1, product_name := "Prod A", sku := "A", quantity := 5, location_id := 28 }

/-- Fixture record: SKU `A`, fractional quantity 11/2. -/
def fixAHalf : OdooStockQuant :=
  { product_id := 1, product_name := "Prod A", sku := "A",
    quantity := ⟨11, 2, by decide, by decide⟩, location_id := 28 }

/-- Fixture snapshot entry for SKU `A` at stored quantity 10. -/
def fixSpA10 : SnapshotProduct :=
  { sku := "A", quantity := 10, product_name := "Prod A", product_id := 1, last_updated := 0 }

/-- Fixture snapshot entry for SKU `A` at stored quantity 5. -/
def fixSpA5 : SnapshotProduct :=
  { sku := "A", quantity := 5, product_name := "Prod A", product_id := 1, last_updated := 0 }

/-- Fixture snapshot entry for SKU `B` at stored quantity 5. -/
def fixSpB5 : SnapshotProduct :=
  { sku := "B", quantity := 5, product_name := "Prod B", product_id := 2, last_updated := 0 }

/-- Fixture snapshot entry for SKU `D` at stored quantity 4. -/
def fixSpD4 : SnapshotProduct :=
  { sku := "D", quantity := 4, product_name := "Prod D", product_id := 4, last_updated := 0 }

/-- Fixture snapshot mapping A to 10 and B to 5 (the scenario of the
specification). -/
def fixSnapAB : SyncSnapshot :=
  { last_sync_timestamp := 0, total_products := 2,
    products := [("A", fixSpA10), ("B", fixSpB5)] }

/-- Fixture snapshot mapping only A to 5. -/
def fixSnapA5 : SyncSnapshot :=
  { last_sync_timestamp := 0, total_products := 1, products := [("A", fixSpA5)] }

/-- Fixture snapshot mapping A to 10 and D to 4 (D no longer in Odoo). -/
def fixSnapAD : SyncSnapshot :=
  { last_sync_timestamp := 0, total_products := 2,
    products := [("A", fixSpA10), ("D", fixSpD4)] }

/-- Fixture adjustment with delta `d` and item id `id`. -/
def fixAdj (id : String) (d : Int) : BulkInventoryAdjustment :=
  { inventory_item_id := id, available_delta := d, sku := none }

/-- Fixture environment: SKU `A` resolves with downstream quantity 10,
SKU `B` with 5, SKU `D` with 4; bulk mutations succeed fully. -/
def fixEnvOk : SyncEnv :=
  { location := some "L",
    lookup := fun s =>
      if s == "A" then .found "gidA" 10
      else if s == "B" then .found "gidB" 5
      else if s == "D" then .found "gidD" 4
      else .notFound,
    bulkCall := fun adjs => .ok adjs.length [],
    save_ok := true, odoo_location := 28 }

/-- Fixture environment: same lookups, but every bulk mutation raises. -/
def fixEnvExc : SyncEnv :=
  { location := some "L",
    lookup := fun s =>
      if s == "A" then .found "gidA" 10
      else if s == "B" then .found "gidB" 5
      else if s == "D" then .found "gidD" 4
      else .notFound,
    bulkCall := fun _ => .exc "boom",
    save_ok := true, odoo_location := 28 }

/-- Fixture environment: every SKU lookup misses. -/
def fixEnvMiss : SyncEnv :=
  { location := some "L", lookup := fun _ => .notFound,
    bulkCall := fun _ => .exc "boom", save_ok := true, odoo_location := 28 }

/-- Fixture HTTP oracle: every attempt is throttled with status 429. -/
def fix429 : Nat → AttemptOutcome := fun _ => .response 429 none "x"

/-- Fixture HTTP oracle: every attempt is a 404 client error. -/
def fix404 : Nat → AttemptOutcome := fun _ => .response 404 none "x"

/-- Fixture HTTP oracle: a throttled GraphQL error body, then success. -/
def fixThrottleOnce : Nat → AttemptOutcome := fun k =>
  if k == 0 then .response 200 (some ["query throttled, slow down"]) "x"
  else .response 200 none "payload"

/-! ### Dictionary lemmas -/

theorem dictFind_eq_none_iff (m : List (String × α)) (k : String) :
    dictFind m k = none ↔ k ∉ m.map Prod.fst := by
  simp only [dictFind, Option.map_eq_none', List.find?_eq_none, List.mem_map, beq_iff_eq]
  aesop

theorem dictFind_isSome_iff (m : List (String × α)) (k : String) :
    (dictFind m k).isSome = true ↔ k ∈ m.map Prod.fst := by
  cases h : dictFind m k with
  | none => simp [(dictFind_eq_none_iff m k).mp h]
  | some v =>
    simp only [Option.isSome_some, true_iff]
    by_contra hk
    have hnone := (dictFind_eq_none_iff m k).mpr hk
    rw [h] at hnone
    exact Option.noConfusion hnone

theorem insertDict_of_not_mem (m : List (String × α)) (k : String) (v : α)
    (h : k ∉ m.map Prod.fst) : insertDict m k v = m ++ [(k, v)] := by
  unfold insertDict
  rw [if_neg]
  intro hs
  rw [List.find?_isSome] at hs
  obtain ⟨e, he, hk⟩ := hs
  exact h (List.mem_map.mpr ⟨e, he, (beq_iff_eq.mp hk)⟩)

theorem buildDict_aux (l acc : List (String × α))
    (h : ((acc ++ l).map Prod.fst).Nodup) :
    List.foldl (fun m e => insertDict m e.1 e.2) acc l = acc ++ l := by
  induction l generalizing acc with
  | nil => simp
  | cons e t ih =>
    have hkey : e.1 ∉ acc.map Prod.fst := by
      rw [List.map_append, List.nodup_append] at h
      intro hmem
      exact h.2.2 hmem (by simp)
    rw [List.foldl_cons]
    have : insertDict acc e.1 e.2 = acc ++ [e] := by
      rw [insertDict_of_not_mem acc e.1 e.2 hkey]
    rw [this, ih (acc ++ [e]) (by rwa [List.append_cons] at h)]
    rw [← List.append_cons]

theorem buildDict_eq_self (l : List (String × α)) (h : (l.map Prod.fst).Nodup) :
    buildDict l = l :=
  buildDict_aux l [] (by simpa using h)

theorem dictFind_map_self {β : Type} (key : β → String) (g : β → α) (l : List β)
    (h : (l.map key).Nodup) (p : β) (hp : p ∈ l) :
    dictFind (l.map (fun x => (key x, g x))) (key p) = some (g p) := by
  induction l with
  | nil => cases hp
  | cons a t ih =>
    rcases List.mem_cons.mp hp with h1 | h1
    · subst h1
      simp [dictFind, List.find?]
    · have hne : (key a == key p) = false := by
        rw [List.map_cons, List.nodup_cons] at h
        rw [beq_eq_false_iff_ne]
        intro hk
        exact h.1 (hk ▸ List.mem_map_of_mem key h1)
      simp only [List.map_cons, dictFind, List.find?, hne]
      exact ih (by rw [List.map_cons, List.nodup_cons] at h; exact h.2) h1


/-! ### Change-detector analysis -/

theorem skuMap_keys (current : List OdooStockQuant) :
    (current.map (fun p => (p.sku, p))).map Prod.fst = currentSkus current := by
  simp [List.map_map, currentSkus]

theorem skuMap_build (current : List OdooStockQuant)
    (hcur : (currentSkus current).Nodup) :
    buildDict (current.map (fun p => (p.sku, p))) = current.map (fun p => (p.sku, p)) :=
  buildDict_eq_self _ (by rw [skuMap_keys]; exact hcur)

theorem skuMap_find_isNone (current : List OdooStockQuant)
    (hcur : (currentSkus current).Nodup) (k : String) :
    (dictFind (buildDict (current.map (fun p => (p.sku, p)))) k).isNone
      = !((currentSkus current).contains k) := by
  rw [skuMap_build current hcur]
  by_cases hk : k ∈ currentSkus current
  · have h1 : (dictFind (current.map (fun p => (p.sku, p))) k).isSome = true := by
      rw [dictFind_isSome_iff, skuMap_keys]; exact hk
    have h2 : (currentSkus current).contains k = true := List.elem_iff.mpr hk
    rw [h2]
    cases hd : dictFind (current.map (fun p => (p.sku, p))) k with
    | none => rw [hd] at h1; exact absurd h1 (by simp)
    | some v => rfl
  · have h2 : (currentSkus current).contains k = false := by
      cases hc : (currentSkus current).contains k with
      | false => rfl
      | true => exact absurd (List.elem_iff.mp hc) hk
    have h1 : dictFind (current.map (fun p => (p.sku, p))) k = none := by
      rw [dictFind_eq_none_iff, skuMap_keys]; exact hk
    rw [h1, h2]; rfl

theorem compare_some_new (current : List OdooStockQuant) (snap : SyncSnapshot)
    (hcur : (currentSkus current).Nodup) :
    (compare_with_current current (some snap)).new_products
      = current.filter (fun p => isNewEntry snap.products (p.sku, p)) := by
  show ((buildDict (current.map (fun p => (p.sku, p)))).filter
      (isNewEntry snap.products)).map Prod.snd = _
  rw [skuMap_build current hcur, List.filter_map, List.map_map]
  exact List.map_id _

theorem compare_some_modified (current : List OdooStockQuant) (snap : SyncSnapshot)
    (hcur : (currentSkus current).Nodup) :
    (compare_with_current current (some snap)).modified_products
      = current.filter (fun p => isModifiedEntry snap.products (p.sku, p)) := by
  show ((buildDict (current.map (fun p => (p.sku, p)))).filter
      (isModifiedEntry snap.products)).map Prod.snd = _
  rw [skuMap_build current hcur, List.filter_map, List.map_map]
  exact List.map_id _

theorem compare_some_unchanged (current : List OdooStockQuant) (snap : SyncSnapshot)
    (hcur : (currentSkus current).Nodup) :
    (compare_with_current current (some snap)).unchanged_products
      = (current.filter (fun p => isUnchangedEntry snap.products (p.sku, p))).length := by
  show ((buildDict (current.map (fun p => (p.sku, p)))).filter
      (isUnchangedEntry snap.products)).length = _
  rw [skuMap_build current hcur, List.filter_map, List.length_map]
  rfl

theorem compare_some_deleted (current : List OdooStockQuant) (snap : SyncSnapshot)
    (hcur : (currentSkus current).Nodup) :
    (compare_with_current current (some snap)).deleted_skus
      = (snap.products.map Prod.fst).filter
          (fun k => !((currentSkus current).contains k)) := by
  show (snap.products.map Prod.fst).filter
      (fun k => (dictFind (buildDict (current.map (fun p => (p.sku, p)))) k).isNone) = _
  exact List.filter_congr (fun k _ => skuMap_find_isNone current hcur k)

theorem compare_total_changes (current : List OdooStockQuant)
    (snapshot : Option SyncSnapshot) :
    (compare_with_current current snapshot).total_changes
      = (compare_with_current current snapshot).new_products.length
        + (compare_with_current current snapshot).modified_products.length
        + (compare_with_current current snapshot).deleted_skus.length := by
  cases snapshot <;> rfl

/-- Each current record falls in exactly one of the three classification
branches, so the three filters partition the record list. -/
theorem classify_partition (sm : List (String × SnapshotProduct))
    (current : List OdooStockQuant) :
    (current.filter (fun p => isNewEntry sm (p.sku, p))).length
      + (current.filter (fun p => isModifiedEntry sm (p.sku, p))).length
      + (current.filter (fun p => isUnchangedEntry sm (p.sku, p))).length
      = current.length := by
  induction current with
  | nil => rfl
  | cons q t ih =>
    cases h : dictFind sm q.sku with
    | none =>
      have hN : isNewEntry sm (q.sku, q) = true := by simp [isNewEntry, h]
      have hM : isModifiedEntry sm (q.sku, q) = false := by simp [isModifiedEntry, h]
      have hU : isUnchangedEntry sm (q.sku, q) = false := by simp [isUnchangedEntry, h]
      simp [List.filter_cons, hN, hM, hU]
      omega
    | some sp =>
      have hN : isNewEntry sm (q.sku, q) = false := by simp [isNewEntry, h]
      cases hb : pyInt q.quantity == sp.quantity with
      | false =>
        have hM : isModifiedEntry sm (q.sku, q) = true := by
          simp [isModifiedEntry, h, bne, hb]
        have hU : isUnchangedEntry sm (q.sku, q) = false := by
          simp [isUnchangedEntry, h, hb]
        simp [List.filter_cons, hN, hM, hU]
        omega
      | true =>
        have hM : isModifiedEntry sm (q.sku, q) = false := by
          simp [isModifiedEntry, h, bne, hb]
        have hU : isUnchangedEntry sm (q.sku, q) = true := by
          simp [isUnchangedEntry, h, hb]
        simp [List.filter_cons, hN, hM, hU]
        omega

theorem isModifiedEntry_isSome (sm : List (String × SnapshotProduct))
    (e : String × OdooStockQuant) (h : isModifiedEntry sm e = true) :
    (dictFind sm e.1).isSome = true := by
  unfold isModifiedEntry at h
  cases hd : dictFind sm e.1 with
  | none => rw [hd] at h; exact absurd h (by simp)
  | some sp => rfl

/-- C2 (amended): provided the current records carry pairwise-distinct
SKUs — the invariant of a real fetch, violated only by duplicate-SKU
lists — and the snapshot keys are unique (a Python dict invariant), the
change detector's new/modified/deleted SKU sets are pairwise disjoint,
`total_changes = |new| + |modified| + |deleted|`, and
`|new| + |modified| + unchanged + |deleted|` equals the number of distinct
current SKUs plus the number of snapshot SKUs absent from current. -/
theorem C2_change_detector_accounting (current : List OdooStockQuant)
    (snapshot : Option SyncSnapshot)
    (hcur : (currentSkus current).Nodup)
    (hsnap : (snapKeys snapshot).Nodup) :
    ((compare_with_current current snapshot).new_products.map OdooStockQuant.sku).Disjoint
        ((compare_with_current current snapshot).modified_products.map OdooStockQuant.sku) ∧
    ((compare_with_current current snapshot).new_products.map OdooStockQuant.sku).Disjoint
        (compare_with_current current snapshot).deleted_skus ∧
    ((compare_with_current current snapshot).modified_products.map OdooStockQuant.sku).Disjoint
        (compare_with_current current snapshot).deleted_skus ∧
    (compare_with_current current snapshot).total_changes
      = (compare_with_current current snapshot).new_products.length
        + (compare_with_current current snapshot).modified_products.length
        + (compare_with_current current snapshot).deleted_skus.length ∧
    (compare_with_current current snapshot).new_products.length
      + (compare_with_current current snapshot).modified_products.length
      + (compare_with_current current snapshot).unchanged_products
      + (compare_with_current current snapshot).deleted_skus.length
      = (currentSkus current).dedup.length
        + ((snapKeys snapshot).filter
            (fun k => !((currentSkus current).contains k))).length := by
  cases snapshot with
  | none =>
    refine ⟨?_, ?_, ?_, compare_total_changes current none, ?_⟩
    · intro s h1 h2
      simp [compare_with_current] at h2
    · intro s h1 h2
      simp [compare_with_current] at h2
    · intro s h1 h2
      simp [compare_with_current] at h1
    · simp only [compare_with_current, snapKeys, List.filter_nil, List.length_nil,
        List.map_nil]
      rw [List.dedup_eq_self.mpr hcur]
      simp [currentSkus]
  | some snap =>
    rw [compare_total_changes current (some snap),
      compare_some_new current snap hcur, compare_some_modified current snap hcur,
      compare_some_deleted current snap hcur, compare_some_unchanged current snap hcur]
    refine ⟨?_, ?_, ?_, rfl, ?_⟩
    · intro s h1 h2
      rcases List.mem_map.mp h1 with ⟨p, hp, rfl⟩
      rcases List.mem_filter.mp hp with ⟨hpc, hpN⟩
      rcases List.mem_map.mp h2 with ⟨p2, hp2, hs2⟩
      rcases List.mem_filter.mp hp2 with ⟨hpc2, hpM⟩
      have h3 : (dictFind snap.products p.sku).isNone = true := hpN
      have h4 : (dictFind snap.products p.sku).isSome = true := by
        rw [← hs2]
        exact isModifiedEntry_isSome snap.products (p2.sku, p2) hpM
      rw [Option.isNone_iff_eq_none] at h3
      rw [h3] at h4
      exact absurd h4 (by simp)
    · intro s h1 h2
      rcases List.mem_map.mp h1 with ⟨p, hp, rfl⟩
      rcases List.mem_filter.mp hp with ⟨hpc, _⟩
      rcases List.mem_filter.mp h2 with ⟨_, habs⟩
      have hmem : p.sku ∈ currentSkus current := List.mem_map_of_mem _ hpc
      simp only [Bool.not_eq_true', ← Bool.not_eq_true] at habs
      exact absurd (List.elem_iff.mpr hmem) (by simpa using habs)
    · intro s h1 h2
      rcases List.mem_map.mp h1 with ⟨p, hp, rfl⟩
      rcases List.mem_filter.mp hp with ⟨hpc, _⟩
      rcases List.mem_filter.mp h2 with ⟨_, habs⟩
      have hmem : p.sku ∈ currentSkus current := List.mem_map_of_mem _ hpc
      simp only [Bool.not_eq_true', ← Bool.not_eq_true] at habs
      exact absurd (List.elem_iff.mpr hmem) (by simpa using habs)
    · simp only [snapKeys]
      rw [List.dedup_eq_self.mpr hcur]
      have hpart := classify_partition snap.products current
      have hlen : (currentSkus current).length = current.length :=
        List.length_map current OdooStockQuant.sku
      omega

/-- C2 counterexample: with the snapshot absent and a duplicated current
SKU, every record is classified new, so
`|new| + |modified| + unchanged + |deleted|` is the record count 2, not
the distinct-SKU count 1 — the accounting identity of the claim fails. -/
theorem C2_counterexample :
    ¬ ((compare_with_current [fixA5, fixA5] none).new_products.length
        + (compare_with_current [fixA5, fixA5] none).modified_products.length
        + (compare_with_current [fixA5, fixA5] none).unchanged_products
        + (compare_with_current [fixA5, fixA5] none).deleted_skus.length
        = (currentSkus [fixA5, fixA5]).dedup.length
          + ((snapKeys none).filter
              (fun k => !((currentSkus [fixA5, fixA5]).contains k))).length) := by
  decide

/-- Witness for C2 on the specification's own scenario
(snapshot A↦10, B↦5; current A:10, B:7, C:3). -/
theorem C2_witness :
    (compare_with_current [fixA10, fixB7, fixC3] (some fixSnapAB)).new_products.length
      + (compare_with_current [fixA10, fixB7, fixC3] (some fixSnapAB)).modified_products.length
      + (compare_with_current [fixA10, fixB7, fixC3] (some fixSnapAB)).unchanged_products
      + (compare_with_current [fixA10, fixB7, fixC3] (some fixSnapAB)).deleted_skus.length
      = (currentSkus [fixA10, fixB7, fixC3]).dedup.length
        + ((snapKeys (some fixSnapAB)).filter
            (fun k => !((currentSkus [fixA10, fixB7, fixC3]).contains k))).length :=
  (C2_change_detector_accounting [fixA10, fixB7, fixC3] (some fixSnapAB)
    (by decide) (by decide)).2.2.2.2

/-- C3 (amended): provided the current records carry pairwise-distinct
SKUs (the invariant of a real fetch), a current record whose SKU exists in
the snapshot is classified modified exactly when its integer-truncated
quantity differs from the stored quantity; otherwise it is neither new nor
modified nor deleted, i.e. unchanged — in particular a change in the
fractional part alone is never reported. -/
theorem C3_modified_iff_trunc_differs (current : List OdooStockQuant)
    (snap : SyncSnapshot) (q : OdooStockQuant) (sp : SnapshotProduct)
    (hcur : (currentSkus current).Nodup) (hq : q ∈ current)
    (hsp : dictFind snap.products q.sku = some sp) :
    (q ∈ (compare_with_current current (some snap)).modified_products
        ↔ pyInt q.quantity ≠ sp.quantity) ∧
    q ∉ (compare_with_current current (some snap)).new_products ∧
    q.sku ∉ (compare_with_current current (some snap)).deleted_skus := by
  rw [compare_some_modified current snap hcur, compare_some_new current snap hcur,
    compare_some_deleted current snap hcur]
  refine ⟨⟨?_, ?_⟩, ?_, ?_⟩
  · intro hmem
    rcases List.mem_filter.mp hmem with ⟨_, hM⟩
    unfold isModifiedEntry at hM
    simp only [hsp] at hM
    exact bne_iff_ne.mp hM
  · intro hne
    refine List.mem_filter.mpr ⟨hq, ?_⟩
    unfold isModifiedEntry
    simp only [hsp]
    exact bne_iff_ne.mpr hne
  · intro hmem
    rcases List.mem_filter.mp hmem with ⟨_, hN⟩
    unfold isNewEntry at hN
    rw [hsp] at hN
    exact absurd hN (by simp)
  · intro hmem
    rcases List.mem_filter.mp hmem with ⟨_, habs⟩
    have hmem2 : q.sku ∈ currentSkus current := List.mem_map_of_mem _ hq
    simp only [Bool.not_eq_true', ← Bool.not_eq_true] at habs
    exact absurd (List.elem_iff.mpr hmem2) (by simpa using habs)

/-- C3 counterexample: with a duplicated SKU the dict build keeps only the
last record, so the shadowed record A:6 — whose SKU is in the snapshot at
stored quantity 5 and whose truncated quantity 6 differs — is nonetheless
not classified as modified. -/
theorem C3_counterexample :
    dictFind fixSnapA5.products fixA6.sku = some fixSpA5 ∧
    pyInt fixA6.quantity ≠ fixSpA5.quantity ∧
    fixA6 ∈ [fixA6, fixA5] ∧
    fixA6 ∉ (compare_with_current [fixA6, fixA5] (some fixSnapA5)).modified_products := by
  decide

/-- Witness for C3: a record at fractional quantity 11/2 against a stored
quantity 5 — the truncations agree, so it is not modified. -/
theorem C3_witness :
    fixAHalf ∉ (compare_with_current [fixAHalf] (some fixSnapA5)).modified_products ∧
    pyInt fixAHalf.quantity = fixSpA5.quantity :=
  ⟨fun h => ((C3_modified_iff_trunc_differs [fixAHalf] fixSnapA5 fixAHalf fixSpA5
      (by decide) (by decide) (by decide)).1.mp h) (by decide), by decide⟩

/-! ### Batcher: C4 -/

theorem chunkLoop_nil (fuel M : Nat) : chunkLoop fuel [] M = [] := by
  cases fuel <;> rfl

theorem chunkLoop_spec (fuel : Nat) :
    ∀ (l : List BulkInventoryAdjustment) (M : Nat), 0 < M → l.length ≤ fuel →
      (∀ b ∈ chunkLoop fuel l M, b.length ≤ M) ∧
      (chunkLoop fuel l M).flatten = l ∧
      (∀ b ∈ (chunkLoop fuel l M).dropLast, b.length = M) := by
  induction fuel with
  | zero =>
    intro l M hM hl
    have : l = [] := List.eq_nil_of_length_eq_zero (Nat.le_zero.mp hl)
    subst this
    refine ⟨?_, rfl, ?_⟩
    · intro b hb
      cases hb
    · intro b hb
      cases hb
  | succ fuel ih =>
    intro l M hM hl
    cases l with
    | nil =>
      refine ⟨?_, rfl, ?_⟩
      · intro b hb
        cases hb
      · intro b hb
        cases hb
    | cons a t =>
      have hdrop : ((a :: t).drop M).length ≤ fuel := by
        rw [List.length_drop]
        simp only [List.length_cons] at hl ⊢
        omega
      obtain ⟨ih1, ih2, ih3⟩ := ih ((a :: t).drop M) M hM hdrop
      have hstep : chunkLoop (fuel + 1) (a :: t) M
          = (a :: t).take M :: chunkLoop fuel ((a :: t).drop M) M := rfl
      refine ⟨?_, ?_, ?_⟩
      · intro b hb
        rw [hstep] at hb
        rcases List.mem_cons.mp hb with h | h
        · subst h
          rw [List.length_take]
          exact min_le_left M _
        · exact ih1 b h
      · rw [hstep, List.flatten_cons, ih2, List.take_append_drop]
      · intro b hb
        rw [hstep] at hb
        cases hrec : chunkLoop fuel ((a :: t).drop M) M with
        | nil =>
          rw [hrec] at hb
          simp at hb
        | cons r rs =>
          rw [hrec] at hb
          rw [List.dropLast_cons₂] at hb
          rcases List.mem_cons.mp hb with h | h
          · subst h
            have hne : (a :: t).drop M ≠ [] := by
              intro hnil
              rw [hnil, chunkLoop_nil] at hrec
              exact List.noConfusion hrec
            have hlen : M < (a :: t).length := by
              by_contra hc
              exact hne (List.drop_eq_nil_iff.mpr (Nat.le_of_not_lt hc))
            rw [List.length_take]
            omega
          · rw [← hrec] at h
            exact ih3 b h

/-- C4: for every adjustment list and positive maximum batch size `M`,
every batch has length at most `M`, the in-order concatenation of the
batches is exactly the input list, and every batch except possibly the
last has length exactly `M`. -/
theorem C4_create_batches_spec (l : List BulkInventoryAdjustment) (M : Nat) (hM : 0 < M) :
    (∀ b ∈ create_batches l M, b.length ≤ M) ∧
    (create_batches l M).flatten = l ∧
    (∀ b ∈ (create_batches l M).dropLast, b.length = M) := by
  unfold create_batches
  rw [if_neg (Nat.pos_iff_ne_zero.mp hM)]
  exact chunkLoop_spec l.length l M hM le_rfl

/-- Witness for C4 at a 3-element list with batch size 2. -/
theorem C4_witness :
    ((create_batches [fixAdj "a" 1, fixAdj "b" 2, fixAdj "c" 3] 2).flatten
        = [fixAdj "a" 1, fixAdj "b" 2, fixAdj "c" 3]) ∧
    (∀ b ∈ create_batches [fixAdj "a" 1, fixAdj "b" 2, fixAdj "c" 3] 2, b.length ≤ 2) :=
  ⟨(C4_create_batches_spec [fixAdj "a" 1, fixAdj "b" 2, fixAdj "c" 3] 2 (by decide)).2.1,
   (C4_create_batches_spec [fixAdj "a" 1, fixAdj "b" 2, fixAdj "c" 3] 2 (by decide)).1⟩

/-! ### Retry policy: C7 -/

theorem runQueryLoop_not_retryable (attempt : Nat → AttemptOutcome) (budget rc : Nat)
    (h : retryableOutcome (attempt rc) = false) :
    (runQueryLoop attempt budget rc).sleeps = [] ∧
    (runQueryLoop attempt budget rc).apiCalls = 1 ∧
    (runQueryLoop attempt budget rc).retries = 0 := by
  unfold runQueryLoop
  cases ho : attempt rc with
  | netError m => simp [retryableOutcome, ho] at h
  | response status errors payload =>
    simp only [retryableOutcome, ho, Bool.or_eq_false_iff, Bool.and_eq_false_iff,
      decide_eq_false_iff_not] at h
    obtain ⟨⟨h429, h5xx⟩, hthr⟩ := h
    dsimp only
    rw [if_neg (by simp [h429])]
    by_cases h400 : 400 ≤ status
    · rw [if_pos h400, if_neg (by simpa using h5xx)]
      exact ⟨rfl, rfl, rfl⟩
    · rw [if_neg h400]
      cases errors with
      | none => exact ⟨rfl, rfl, rfl⟩
      | some es =>
        have hany : es.any throttledIn = false := by
          rcases hthr with h | h
          · exact absurd (Nat.lt_of_not_le h400) (by simpa using h)
          · simpa using h
        dsimp only
        rw [if_neg (by simp [hany])]
        exact ⟨rfl, rfl, rfl⟩

theorem runQueryLoop_budget_zero (attempt : Nat → AttemptOutcome) (rc : Nat) :
    (runQueryLoop attempt 0 rc).sleeps = [] ∧
    (runQueryLoop attempt 0 rc).apiCalls = 1 ∧
    (runQueryLoop attempt 0 rc).retries = 0 := by
  unfold runQueryLoop
  cases ho : attempt rc with
  | netError m => exact ⟨rfl, rfl, rfl⟩
  | response status errors payload =>
    dsimp only
    by_cases h429 : (status == 429) = true
    · rw [if_pos h429]
      exact ⟨rfl, rfl, rfl⟩
    · rw [if_neg h429]
      by_cases h400 : 400 ≤ status
      · rw [if_pos h400]
        by_cases h5 : 500 ≤ status
        · rw [if_pos h5]
          exact ⟨rfl, rfl, rfl⟩
        · rw [if_neg h5]
          exact ⟨rfl, rfl, rfl⟩
      · rw [if_neg h400]
        cases errors with
        | none => exact ⟨rfl, rfl, rfl⟩
        | some es =>
          dsimp only
          by_cases hany : es.any throttledIn = true
          · rw [if_pos hany]
            exact ⟨rfl, rfl, rfl⟩
          · rw [if_neg hany]
            exact ⟨rfl, rfl, rfl⟩

theorem runQueryLoop_retry_step (attempt : Nat → AttemptOutcome) (b rc : Nat)
    (h : retryableOutcome (attempt rc) = true) :
    runQueryLoop attempt (b + 1) rc =
      { result := (runQueryLoop attempt b (rc + 1)).result,
        sleeps := INITIAL_BACKOFF * 2 ^ rc :: (runQueryLoop attempt b (rc + 1)).sleeps,
        apiCalls := (runQueryLoop attempt b (rc + 1)).apiCalls + 1,
        retries := (runQueryLoop attempt b (rc + 1)).retries + 1 } := by
  conv_lhs => rw [runQueryLoop]
  cases ho : attempt rc with
  | netError m => rfl
  | response status errors payload =>
    simp only [retryableOutcome, ho, Bool.or_eq_true, Bool.and_eq_true,
      decide_eq_true_eq] at h
    dsimp only
    by_cases h429 : (status == 429) = true
    · rw [if_pos h429]
    · rw [if_neg h429]
      by_cases h5 : 500 ≤ status
      · rw [if_pos (le_trans (by omega) h5), if_pos h5]
      · have h400 : ¬ 400 ≤ status := by
          rcases h with (h | h) | ⟨h, _⟩
          · exact absurd h h429
          · exact absurd h h5
          · omega
        rw [if_neg h400]
        cases errors with
        | none =>
          rcases h with (h | h) | ⟨_, h⟩
          · exact absurd h h429
          · exact absurd h h5
          · exact absurd h (by simp)
        | some es =>
          have hany : es.any throttledIn = true := by
            rcases h with (h | h) | ⟨_, h⟩
            · exact absurd h h429
            · exact absurd h h5
            · exact h
          dsimp only
          rw [if_pos hany]

theorem runQueryLoop_immediate (attempt : Nat → AttemptOutcome) (budget rc : Nat)
    (h : immediateErrorOutcome (attempt rc) = true) :
    runQueryLoop attempt budget rc
      = { result := .error .shopifyGraphQLError, sleeps := [], apiCalls := 1, retries := 0 } := by
  unfold runQueryLoop
  cases ho : attempt rc with
  | netError m => simp [immediateErrorOutcome, ho] at h
  | response status errors payload =>
    simp only [immediateErrorOutcome, ho, Bool.or_eq_true, Bool.and_eq_true,
      decide_eq_true_eq] at h
    dsimp only
    rcases h with ⟨⟨h400, h500⟩, h429⟩ | ⟨h400, herr⟩
    · rw [if_neg (by simpa using h429), if_pos h400, if_neg (by omega)]
    · have h429' : (status == 429) = false := by
        simp only [beq_eq_false_iff_ne]
        omega
      rw [if_neg (by simp [h429']), if_neg (by omega)]
      cases errors with
      | none => simp at herr
      | some es =>
        have herr2 : (!es.any throttledIn) = true := herr
        have hany : es.any throttledIn = false := by
          cases hx : es.any throttledIn with
          | false => rfl
          | true => rw [hx] at herr2; exact absurd herr2 (by simp)
        dsimp only
        rw [if_neg (by simp [hany])]

theorem runQueryLoop_spec (attempt : Nat → AttemptOutcome) :
    ∀ (budget rc : Nat),
      (runQueryLoop attempt budget rc).sleeps
        = (List.range (runQueryLoop attempt budget rc).retries).map
            (fun k => INITIAL_BACKOFF * 2 ^ (rc + k)) ∧
      (runQueryLoop attempt budget rc).apiCalls
        = (runQueryLoop attempt budget rc).retries + 1 ∧
      (runQueryLoop attempt budget rc).retries ≤ budget ∧
      (∀ k < (runQueryLoop attempt budget rc).retries,
        retryableOutcome (attempt (rc + k)) = true) := by
  intro budget
  induction budget with
  | zero =>
    intro rc
    obtain ⟨h1, h2, h3⟩ := runQueryLoop_budget_zero attempt rc
    refine ⟨by simp [h1, h3], by simp [h2, h3], by simp [h3], ?_⟩
    intro k hk
    rw [h3] at hk
    exact absurd hk (by omega)
  | succ b ih =>
    intro rc
    by_cases hr : retryableOutcome (attempt rc) = true
    · rw [runQueryLoop_retry_step attempt b rc hr]
      obtain ⟨ih1, ih2, ih3, ih4⟩ := ih (rc + 1)
      refine ⟨?_, ?_, ?_, ?_⟩
      · show INITIAL_BACKOFF * 2 ^ rc :: (runQueryLoop attempt b (rc + 1)).sleeps
          = (List.range ((runQueryLoop attempt b (rc + 1)).retries + 1)).map
              (fun k => INITIAL_BACKOFF * 2 ^ (rc + k))
        rw [List.range_succ_eq_map, List.map_cons, List.map_map, ih1]
        have harith : (List.range (runQueryLoop attempt b (rc + 1)).retries).map
              (fun k => INITIAL_BACKOFF * 2 ^ (rc + 1 + k))
            = (List.range (runQueryLoop attempt b (rc + 1)).retries).map
              ((fun k => INITIAL_BACKOFF * 2 ^ (rc + k)) ∘ (fun k => k + 1)) := by
          apply List.map_congr_left
          intro k _
          show INITIAL_BACKOFF * 2 ^ (rc + 1 + k) = INITIAL_BACKOFF * 2 ^ (rc + (k + 1))
          rw [show rc + 1 + k = rc + (k + 1) by omega]
        rw [harith]
        simp
      · show (runQueryLoop attempt b (rc + 1)).apiCalls + 1
          = (runQueryLoop attempt b (rc + 1)).retries + 1 + 1
        omega
      · show (runQueryLoop attempt b (rc + 1)).retries + 1 ≤ b + 1
        omega
      · intro k hk
        show retryableOutcome (attempt (rc + k)) = true
        cases k with
        | zero => simpa using hr
        | succ j =>
          have hj : j < (runQueryLoop attempt b (rc + 1)).retries := by
            simp only [RunQueryOut.mk.injEq] at hk ⊢
            omega
          have := ih4 j hj
          rw [show rc + (j + 1) = rc + 1 + j by omega]
          exact this
    · have hf : retryableOutcome (attempt rc) = false := by simpa using hr
      obtain ⟨h1, h2, h3⟩ := runQueryLoop_not_retryable attempt (b + 1) rc hf
      refine ⟨by simp [h1, h3], by simp [h2, h3], by simp [h3], ?_⟩
      intro k hk
      rw [h3] at hk
      exact absurd hk (by omega)

/-- C7: for every sequence of HTTP attempt outcomes, `_run_query` sleeps
`INITIAL_BACKOFF * 2^k` seconds before the (k+1)-th retry (the backoff
doubles from the fixed initial interval), performs at most `MAX_RETRIES`
retries (one more API call than retries), retries only on 429 / 5xx /
throttled GraphQL errors / network exceptions, and fails immediately with
no sleep and a single attempt on any other error shape (non-429 4xx, or a
GraphQL error body with no throttling signal). -/
theorem C7_run_query_retry_policy (attempt : Nat → AttemptOutcome) :
    (run_query attempt 0).sleeps
      = (List.range (run_query attempt 0).retries).map
          (fun k => INITIAL_BACKOFF * 2 ^ k) ∧
    (run_query attempt 0).retries ≤ MAX_RETRIES ∧
    (run_query attempt 0).apiCalls = (run_query attempt 0).retries + 1 ∧
    (∀ k < (run_query attempt 0).retries, retryableOutcome (attempt k) = true) ∧
    (retryableOutcome (attempt 0) = false →
      (run_query attempt 0).retries = 0 ∧ (run_query attempt 0).sleeps = []) ∧
    (immediateErrorOutcome (attempt 0) = true →
      run_query attempt 0
        = { result := .error .shopifyGraphQLError, sleeps := [], apiCalls := 1, retries := 0 }) := by
  obtain ⟨h1, h2, h3, h4⟩ := runQueryLoop_spec attempt (MAX_RETRIES - 0) 0
  refine ⟨?_, ?_, h2, ?_, ?_, ?_⟩
  · rw [show run_query attempt 0 = runQueryLoop attempt (MAX_RETRIES - 0) 0 from rfl, h1]
    apply List.map_congr_left
    intro k _
    simp
  · simpa using h3
  · intro k hk
    simpa using h4 k hk
  · intro hf
    obtain ⟨hs, _, hr⟩ := runQueryLoop_not_retryable attempt (MAX_RETRIES - 0) 0 hf
    exact ⟨hr, hs⟩
  · intro hi
    exact runQueryLoop_immediate attempt (MAX_RETRIES - 0) 0 hi

/-- Witness for C7: an always-throttled oracle retries 4 times with
doubling sleeps 1,2,4,8 and then raises `RateLimitExceeded`; a 404 oracle
fails at once with no sleep and one call. -/
theorem C7_witness :
    retryableOutcome (fix429 0) = true ∧
    run_query fix429 0
      = { result := .error .rateLimitExceeded, sleeps := [1, 2, 4, 8], apiCalls := 5, retries := 4 } ∧
    immediateErrorOutcome (fix404 0) = true ∧
    run_query fix404 0
      = { result := .error .shopifyGraphQLError, sleeps := [], apiCalls := 1, retries := 0 } := by
  refine ⟨(C7_run_query_retry_policy fix429).2.2.2.1 0 (by decide), by decide, by decide,
    (C7_run_query_retry_policy fix404).2.2.2.2.2 (by decide)⟩

/-! ### Snapshot loading: C5 -/

/-- C5 evaluation: the claim says `load_snapshot` returns a snapshot or
absent and never raises on wrongly shaped content, but a snapshot file
holding the valid JSON text `[]` makes the Python body evaluate
`data['last_sync_timestamp']` on a list, raising a `TypeError` that the
`except (json.JSONDecodeError, KeyError, ValueError)` handler does not
catch.  Invalid JSON and dict-shaped corruption are handled: they yield
absent, and detection with an absent snapshot marks every record new. -/
theorem C5_load_snapshot_fallback (iso : String → Option Nat)
    (current : List OdooStockQuant) :
    load_snapshot iso (some (JVal.jarr [])) = .error .typeError ∧
    load_snapshot iso none = .ok none ∧
    load_snapshot iso (some (JVal.jobj [])) = .ok none ∧
    (compare_with_current current none).new_products = current ∧
    (compare_with_current current none).total_changes = current.length := by
  exact ⟨rfl, rfl, rfl, rfl, rfl⟩

/-! ### No-op idempotence: C1 -/

theorem map_pair_keys {α : Type} (g : OdooStockQuant → α) (products : List OdooStockQuant) :
    (products.map (fun p => (p.sku, g p))).map Prod.fst = currentSkus products := by
  simp [List.map_map, currentSkus]

theorem save_snapshot_products_eq (products : List OdooStockQuant) (now : Nat)
    (hcur : (currentSkus products).Nodup) :
    save_snapshot_products products now = products.map (fun p =>
      (p.sku, { sku := p.sku, quantity := pyInt p.quantity,
                product_name := p.product_name, product_id := p.product_id,
                last_updated := now })) := by
  unfold save_snapshot_products
  exact buildDict_eq_self _ (by rw [map_pair_keys]; exact hcur)

theorem save_snapshot_find (products : List OdooStockQuant) (now : Nat)
    (hcur : (currentSkus products).Nodup) (p : OdooStockQuant) (hp : p ∈ products) :
    dictFind (save_snapshot_products products now) p.sku
      = some { sku := p.sku, quantity := pyInt p.quantity,
               product_name := p.product_name, product_id := p.product_id,
               last_updated := now } := by
  rw [save_snapshot_products_eq products now hcur]
  exact dictFind_map_self OdooStockQuant.sku _ products hcur p hp

/-- Re-running the change detector against the snapshot just saved from
the same SKU-unique product list finds nothing: every record unchanged. -/
theorem compare_after_save (products : List OdooStockQuant) (now : Nat)
    (hcur : (currentSkus products).Nodup) :
    compare_with_current products (some (save_snapshot_result products now)) =
      { new_products := [], modified_products := [], deleted_skus := [],
        unchanged_products := products.length, total_changes := 0 } := by
  have hfind : ∀ p ∈ products,
      dictFind (save_snapshot_result products now).products p.sku
        = some { sku := p.sku, quantity := pyInt p.quantity,
                 product_name := p.product_name, product_id := p.product_id,
                 last_updated := now } :=
    fun p hp => save_snapshot_find products now hcur p hp
  have hnew : (compare_with_current products (some (save_snapshot_result products now))).new_products = [] := by
    rw [compare_some_new products _ hcur]
    apply List.filter_eq_nil_iff.mpr
    intro p hp
    unfold isNewEntry
    rw [hfind p hp]
    simp
  have hmod : (compare_with_current products (some (save_snapshot_result products now))).modified_products = [] := by
    rw [compare_some_modified products _ hcur]
    apply List.filter_eq_nil_iff.mpr
    intro p hp
    unfold isModifiedEntry
    rw [hfind p hp]
    simp
  have hunch : (compare_with_current products (some (save_snapshot_result products now))).unchanged_products = products.length := by
    rw [compare_some_unchanged products _ hcur]
    have hall : ∀ p ∈ products,
        isUnchangedEntry (save_snapshot_result products now).products (p.sku, p) = true := by
      intro p hp
      unfold isUnchangedEntry
      rw [hfind p hp]
      simp
    rw [List.filter_eq_self.mpr hall]
  have hdel : (compare_with_current products (some (save_snapshot_result products now))).deleted_skus = [] := by
    rw [compare_some_deleted products _ hcur]
    apply List.filter_eq_nil_iff.mpr
    intro k hk
    have hk2 : k ∈ currentSkus products := by
      have : (save_snapshot_result products now).products.map Prod.fst = currentSkus products := by
        rw [show (save_snapshot_result products now).products = save_snapshot_products products now from rfl,
          save_snapshot_products_eq products now hcur, map_pair_keys]
      rwa [this] at hk
    simp only [List.elem_iff.mpr hk2, Bool.not_true, Bool.false_eq_true, not_false_eq_true]
  have htot := compare_total_changes products (some (save_snapshot_result products now))
  have heta : compare_with_current products (some (save_snapshot_result products now))
      = { new_products := (compare_with_current products (some (save_snapshot_result products now))).new_products,
          modified_products := (compare_with_current products (some (save_snapshot_result products now))).modified_products,
          deleted_skus := (compare_with_current products (some (save_snapshot_result products now))).deleted_skus,
          unchanged_products := (compare_with_current products (some (save_snapshot_result products now))).unchanged_products,
          total_changes := (compare_with_current products (some (save_snapshot_result products now))).total_changes } := rfl
  rw [heta, hnew, hmod, hdel, hunch, htot, hnew, hmod, hdel]
  rfl

/-- C1: after a run whose snapshot save succeeded (persisting the snapshot
built from the fetched products), a second run over the same SKU-unique
inventory detects `total_changes = 0` and short-circuits: no Shopify call
of any kind, zero batches, successful = failed = skipped = 0, unchanged
equal to the number of products, and `snapshot_updated = false` — for
every collaborator environment, since none is consulted. -/
theorem C1_noop_second_run (products : List OdooStockQuant) (now : Nat) (env : SyncEnv)
    (hne : products ≠ []) (hcur : (currentSkus products).Nodup) :
    (compare_with_current products (some (save_snapshot_result products now))).total_changes = 0 ∧
    sync_all_inventory_bulk_with_changes products (some (save_snapshot_result products now)) env
      = .ok { summary := { total_products := products.length, successful := 0, failed := 0,
                           skipped := 0, unchanged := products.length, new := 0, modified := 0,
                           deleted := 0, results := [], bulk_mode := true, total_batches := 0,
                           snapshot_updated := false },
              calls := [], batches := [], saved := false } := by
  have hcmp := compare_after_save products now hcur
  have hemp : products.isEmpty = false := by
    cases products with
    | nil => exact absurd rfl hne
    | cons a t => rfl
  refine ⟨by rw [hcmp], ?_⟩
  unfold sync_all_inventory_bulk_with_changes
  rw [hemp, if_neg Bool.false_ne_true, hcmp]
  rfl

/-- Witness for C1: two products saved at tick 5, re-run against any
environment (here one whose bulk calls would all fail — they are never
made). -/
theorem C1_witness :
    sync_all_inventory_bulk_with_changes [fixA10, fixB7]
        (some (save_snapshot_result [fixA10, fixB7] 5)) fixEnvExc
      = .ok { summary := { total_products := 2, successful := 0, failed := 0,
                           skipped := 0, unchanged := 2, new := 0, modified := 0,
                           deleted := 0, results := [], bulk_mode := true, total_batches := 0,
                           snapshot_updated := false },
              calls := [], batches := [], saved := false } :=
  (C1_noop_second_run [fixA10, fixB7] 5 fixEnvExc (by decide) (by decide)).2

/-! ### Executor loops: shared lemmas -/

theorem prepare_adjustments_found (lookup : String → VariantLookup)
    (l : List OdooStockQuant) (q : OdooStockQuant) (id : String) (cur : Int)
    (hq : q ∈ l) (hl : lookup q.sku = .found id cur) :
    ({ inventory_item_id := id, available_delta := pyInt q.quantity - cur,
       sku := some q.sku } : BulkInventoryAdjustment)
      ∈ (prepare_adjustments lookup l).adjustments := by
  induction l with
  | nil => cases hq
  | cons a t ih =>
    rcases List.mem_cons.mp hq with rfl | hmem
    · unfold prepare_adjustments
      rw [hl]
      exact List.mem_cons_self _ _
    · unfold prepare_adjustments
      cases hla : lookup a.sku with
      | found id2 cur2 => exact List.mem_cons_of_mem _ (ih hmem)
      | notFound => exact ih hmem
      | raised m => exact ih hmem

theorem prepare_adjustments_all_fail (lookup : String → VariantLookup)
    (l : List OdooStockQuant)
    (h : ∀ q ∈ l, lookup q.sku = .notFound ∨ ∃ m, lookup q.sku = .raised m) :
    (prepare_adjustments lookup l).adjustments = [] ∧
    (prepare_adjustments lookup l).skipped = (l.length : Int) ∧
    (prepare_adjustments lookup l).results.length = l.length := by
  induction l with
  | nil => exact ⟨rfl, rfl, rfl⟩
  | cons a t ih =>
    obtain ⟨ih1, ih2, ih3⟩ := ih (fun q hq => h q (List.mem_cons_of_mem a hq))
    rcases h a (List.mem_cons_self a t) with ha | ⟨m, ha⟩
    · unfold prepare_adjustments
      rw [ha]
      refine ⟨ih1, ?_, ?_⟩
      · show (prepare_adjustments lookup t).skipped + 1 = ((a :: t).length : Int)
        rw [ih2]
        simp
      · show (prepare_adjustments lookup t).results.length + 1 = (a :: t).length
        rw [ih3]
        rfl
    · unfold prepare_adjustments
      rw [ha]
      refine ⟨ih1, ?_, ?_⟩
      · show (prepare_adjustments lookup t).skipped + 1 = ((a :: t).length : Int)
        rw [ih2]
        simp
      · show (prepare_adjustments lookup t).results.length + 1 = (a :: t).length
        rw [ih3]
        rfl

theorem bulk_adjust_netCalls (adjs : List BulkInventoryAdjustment)
    (call : List BulkInventoryAdjustment → BulkCallOutcome)
    (h : adjs.length ≤ MAX_BATCH_SIZE) :
    netCallsOf (bulk_adjust_inventory adjs call)
      = (if (adjs.filter (fun a => a.available_delta != 0)).isEmpty then []
         else [adjs.filter (fun a => a.available_delta != 0)]) := by
  unfold bulk_adjust_inventory
  rw [if_neg (by omega)]
  cases hemp : adjs.isEmpty with
  | true =>
    have : adjs = [] := List.isEmpty_iff.mp hemp
    subst this
    rfl
  | false =>
    rw [if_neg (by simp [hemp])]
    dsimp only
    cases hf : (adjs.filter (fun a => a.available_delta != 0)).isEmpty with
    | true => rfl
    | false =>
      rw [if_neg Bool.false_ne_true, if_neg Bool.false_ne_true]
      cases call (adjs.filter (fun a => a.available_delta != 0)) <;> rfl

/-! ### Zero-delta handling: C6 -/

/-- C6 (amended): each prepared adjustment's delta is the integer-truncated
desired quantity minus the downstream current quantity; zero-delta
adjustments are NOT dropped before batching (they occupy batch slots), but
`bulk_adjust_inventory` filters them out before dispatching, so a
zero-delta adjustment is never sent over the network and a batch of only
zero deltas triggers no network call. -/
theorem C6_zero_delta_filtering :
    (∀ (lookup : String → VariantLookup) (l : List OdooStockQuant) (q : OdooStockQuant)
        (id : String) (cur : Int), q ∈ l → lookup q.sku = .found id cur →
        ({ inventory_item_id := id, available_delta := pyInt q.quantity - cur,
           sku := some q.sku } : BulkInventoryAdjustment)
          ∈ (prepare_adjustments lookup l).adjustments) ∧
    (∀ (adjs : List BulkInventoryAdjustment)
        (call : List BulkInventoryAdjustment → BulkCallOutcome),
        adjs.length ≤ MAX_BATCH_SIZE →
        netCallsOf (bulk_adjust_inventory adjs call)
          = (if (adjs.filter (fun a => a.available_delta != 0)).isEmpty then []
             else [adjs.filter (fun a => a.available_delta != 0)])) ∧
    (∀ (adjs : List BulkInventoryAdjustment)
        (call : List BulkInventoryAdjustment → BulkCallOutcome),
        adjs.length ≤ MAX_BATCH_SIZE →
        ∀ L ∈ netCallsOf (bulk_adjust_inventory adjs call), ∀ a ∈ L,
          a.available_delta ≠ 0) := by
  refine ⟨prepare_adjustments_found, bulk_adjust_netCalls, ?_⟩
  intro adjs call h L hL a ha
  rw [bulk_adjust_netCalls adjs call h] at hL
  by_cases hf : (adjs.filter (fun a => a.available_delta != 0)).isEmpty
  · rw [if_pos hf] at hL
    cases hL
  · rw [if_neg hf] at hL
    rcases List.mem_cons.mp hL with rfl | hnil
    · have := (List.mem_filter.mp ha).2
      simpa using this
    · cases hnil

/-- C6 counterexample: one product whose delta is 0 still becomes an
adjustment, is batched, and the summary reports one batch — contradicting
"dropped before partitioning, never occupies a batch slot", which would
give zero batches here. -/
theorem C6_counterexample :
    (sync_all_inventory_bulk [fixA10] fixEnvOk).toOption.map
        (fun r => (r.summary.total_batches, r.batches))
      = some (1, [[{ inventory_item_id := "gidA", available_delta := 0, sku := some "A" }]]) ∧
    (1 : Int) ≠ 0 := by
  exact ⟨rfl, by decide⟩

/-- Witness for C6: a prepared adjustment with delta 7 - 5 = 2, and an
all-zero batch dispatching no network call. -/
theorem C6_witness :
    ({ inventory_item_id := "gidB", available_delta := 2,
       sku := some "B" } : BulkInventoryAdjustment)
      ∈ (prepare_adjustments fixEnvOk.lookup [fixB7]).adjustments ∧
    netCallsOf (bulk_adjust_inventory [fixAdj "x" 0] fixEnvOk.bulkCall) = [] := by
  constructor
  · exact C6_zero_delta_filtering.1 fixEnvOk.lookup [fixB7] fixB7 "gidB" 5
      (List.mem_cons_self _ _) (by decide)
  · rw [C6_zero_delta_filtering.2.1 [fixAdj "x" 0] fixEnvOk.bulkCall (by decide)]
    rfl

/-! ### Failed batches: C8 -/

theorem process_batches_results_length
    (call : List BulkInventoryAdjustment → BulkCallOutcome) :
    ∀ batches : List (List BulkInventoryAdjustment),
      (process_batches call batches).results.length = (batches.map List.length).sum := by
  intro batches
  induction batches with
  | nil => rfl
  | cons batch rest ih =>
    unfold process_batches
    cases hb : bulk_adjust_inventory batch call with
    | raisedValueError =>
      show (batch.map (batchErrResult ["ValueError"]) ++ (process_batches call rest).results).length = _
      rw [List.length_append, List.length_map, ih]
      rfl
    | result r netCalls =>
      show (batch.map _ ++ (process_batches call rest).results).length = _
      rw [List.length_append, List.length_map, ih]
      rfl

theorem bulk_adjust_exc (batch : List BulkInventoryAdjustment)
    (call : List BulkInventoryAdjustment → BulkCallOutcome) (m : String)
    (hlen : batch.length ≤ MAX_BATCH_SIZE)
    (hfne : (batch.filter (fun a => a.available_delta != 0)).isEmpty = false)
    (hexc : call (batch.filter (fun a => a.available_delta != 0)) = .exc m) :
    bulk_adjust_inventory batch call
      = .result { success := false, items_updated := 0,
                  items_failed := ((batch.filter (fun a => a.available_delta != 0)).length : Int),
                  user_errors := [m] }
          [batch.filter (fun a => a.available_delta != 0)] := by
  have hbne : batch.isEmpty = false := by
    cases batch with
    | nil => simp at hfne
    | cons a t => rfl
  unfold bulk_adjust_inventory
  rw [if_neg (by omega), hbne, if_neg Bool.false_ne_true]
  dsimp only
  rw [hfne, if_neg Bool.false_ne_true, hexc]

/-- C8 (amended): when a batch's bulk-adjust call fails (the mutation
raises even after retries), every item of the batch gets a per-SKU failure
row, the failed counter increases by the number of dispatched (non-zero
delta) items of the batch — not the full batch size when zero-delta items
are present — the remaining batches are still processed, every item of
every batch receives exactly one result row, and a summary is returned
even when every item failed. -/
theorem C8_failed_batch_isolation :
    (∀ (call : List BulkInventoryAdjustment → BulkCallOutcome)
        (batches : List (List BulkInventoryAdjustment)),
      (process_batches call batches).results.length = (batches.map List.length).sum) ∧
    (∀ (call : List BulkInventoryAdjustment → BulkCallOutcome)
        (batch : List BulkInventoryAdjustment)
        (rest : List (List BulkInventoryAdjustment)) (m : String),
      batch.length ≤ MAX_BATCH_SIZE →
      (batch.filter (fun a => a.available_delta != 0)).isEmpty = false →
      call (batch.filter (fun a => a.available_delta != 0)) = .exc m →
      process_batches call (batch :: rest)
        = { successful := 0 + (process_batches call rest).successful,
            failed := ((batch.filter (fun a => a.available_delta != 0)).length : Int)
              + (process_batches call rest).failed,
            results := batch.map (batchErrResult [m]) ++ (process_batches call rest).results,
            calls := [ShopCall.bulkMutation (batch.filter (fun a => a.available_delta != 0))]
              ++ (process_batches call rest).calls }) ∧
    (∀ (stock : List OdooStockQuant) (env : SyncEnv) (loc : String),
      env.location = some loc → ∃ r, sync_all_inventory_bulk stock env = .ok r) := by
  refine ⟨process_batches_results_length, ?_, ?_⟩
  · intro call batch rest m hlen hfne hexc
    conv_lhs => rw [process_batches]
    rw [bulk_adjust_exc batch call m hlen hfne hexc]
    rfl
  · intro stock env loc hloc
    unfold sync_all_inventory_bulk
    cases hemp : stock.isEmpty with
    | true => exact ⟨_, rfl⟩
    | false =>
      rw [hloc]
      dsimp only
      by_cases hadj : (prepare_adjustments env.lookup stock).adjustments.isEmpty
      · rw [if_pos hadj]
        exact ⟨_, rfl⟩
      · rw [if_neg hadj]
        exact ⟨_, rfl⟩

/-- C8 counterexample: a batch holding a zero-delta and a delta-2 item
whose bulk call raises yields two per-item failure rows but a failed count
of 1 (the dispatched items), not 2 (the batch's items) as claimed. -/
theorem C8_counterexample :
    (sync_all_inventory_bulk [fixA10, fixB7] fixEnvExc).toOption.map
        (fun r => (r.summary.failed, r.summary.results.length,
                   r.summary.results.map SyncResult.success, r.batches.map List.length))
      = some (1, 2, [false, false], [2]) ∧
    (1 : Int) ≠ 2 := by
  exact ⟨rfl, by decide⟩

/-- Witness for C8: the failing singleton batch list. -/
theorem C8_witness :
    process_batches fixEnvExc.bulkCall [[fixAdj "a" 0, fixAdj "b" 2]]
      = { successful := 0 + 0, failed := (1 : Int) + 0,
          results := [fixAdj "a" 0, fixAdj "b" 2].map (batchErrResult ["boom"]) ++ [],
          calls := [ShopCall.bulkMutation [fixAdj "b" 2]] ++ [] } :=
  C8_failed_batch_isolation.2.1 fixEnvExc.bulkCall [fixAdj "a" 0, fixAdj "b" 2] [] "boom"
    (by decide) (by decide) (by decide)

/-! ### Deleted SKUs: C9 -/

/-- C9: every SKU the change detector reports as deleted is appended to
the products to synchronize with quantity 0, so when the SKU resolves
downstream to current quantity `cur` the prepared adjustment carries delta
`0 - cur` — deleted SKUs are zeroed out downstream rather than ignored. -/
theorem C9_deleted_skus_zeroed (current : List OdooStockQuant) (snap : SyncSnapshot)
    (env : SyncEnv) (sku : String)
    (hdel : sku ∈ (compare_with_current current (some snap)).deleted_skus) :
    (∃ q ∈ products_to_sync (compare_with_current current (some snap)) (some snap)
        env.odoo_location, q.sku = sku ∧ q.quantity = 0) ∧
    (∀ (id : String) (cur : Int), env.lookup sku = .found id cur →
      ({ inventory_item_id := id, available_delta := 0 - cur,
         sku := some sku } : BulkInventoryAdjustment)
        ∈ (prepare_adjustments env.lookup
            (products_to_sync (compare_with_current current (some snap)) (some snap)
              env.odoo_location)).adjustments) := by
  obtain ⟨hkeys, _⟩ := List.mem_filter.mp hdel
  obtain ⟨dp, hdp⟩ := Option.isSome_iff_exists.mp
    ((dictFind_isSome_iff snap.products sku).mpr hkeys)
  have hqd :
      ({ product_id := dp.product_id,
         product_name := dp.product_name,
         sku := sku, quantity := 0,
         location_id := env.odoo_location } : OdooStockQuant)
      ∈ products_to_sync (compare_with_current current (some snap)) (some snap)
          env.odoo_location := by
    unfold products_to_sync
    refine List.mem_append.mpr (Or.inr ?_)
    dsimp only
    refine List.mem_filterMap.mpr ⟨sku, hdel, ?_⟩
    rw [hdp]
    rfl
  refine ⟨⟨_, hqd, rfl, rfl⟩, ?_⟩
  intro id cur hlk
  have h := prepare_adjustments_found env.lookup _ _ id cur hqd hlk
  have hz : pyInt (0 : Rat) = 0 := by decide
  dsimp only at h
  rw [hz] at h
  exact h

/-- Witness for C9: snapshot holds A and D, current holds only A, so D is
deleted; D resolves at downstream quantity 4, and the prepared adjustment
is `0 - 4`. -/
theorem C9_witness :
    ({ inventory_item_id := "gidD", available_delta := 0 - 4,
       sku := some "D" } : BulkInventoryAdjustment)
      ∈ (prepare_adjustments fixEnvOk.lookup
          (products_to_sync (compare_with_current [fixA10] (some fixSnapAD)) (some fixSnapAD)
            fixEnvOk.odoo_location)).adjustments ∧
    "D" ∈ (compare_with_current [fixA10] (some fixSnapAD)).deleted_skus :=
  ⟨(C9_deleted_skus_zeroed [fixA10] fixSnapAD fixEnvOk "D" (by decide)).2 "gidD" 4 (by decide),
   by decide⟩

/-! ### Changes detected but nothing preparable: C10 -/

/-- C10: when changes are detected but every changed product fails SKU
resolution or preparation, the summary counts each such product in both
`failed` and `skipped` (both equal the number of unprepared products),
reports zero batches and `snapshot_updated = false`, and `save_snapshot`
is never invoked — the snapshot file is untouched, so the pure detector
re-detects the same changes next run. -/
theorem C10_unprepared_changes_summary (current : List OdooStockQuant)
    (snapshot : Option SyncSnapshot) (env : SyncEnv) (loc : String)
    (hne : current ≠ [])
    (hch : ¬ (compare_with_current current snapshot).total_changes = 0)
    (hloc : env.location = some loc)
    (hfail : ∀ q ∈ products_to_sync (compare_with_current current snapshot) snapshot
        env.odoo_location,
      env.lookup q.sku = .notFound ∨ ∃ m, env.lookup q.sku = .raised m) :
    sync_all_inventory_bulk_with_changes current snapshot env
      = .ok { summary := { total_products := current.length, successful := 0,
                           failed := ((products_to_sync (compare_with_current current snapshot)
                               snapshot env.odoo_location).length : Int),
                           skipped := ((products_to_sync (compare_with_current current snapshot)
                               snapshot env.odoo_location).length : Int),
                           unchanged := (compare_with_current current snapshot).unchanged_products,
                           new := (compare_with_current current snapshot).new_products.length,
                           modified := (compare_with_current current snapshot).modified_products.length,
                           deleted := (compare_with_current current snapshot).deleted_skus.length,
                           results := (prepare_adjustments env.lookup
                               (products_to_sync (compare_with_current current snapshot)
                                 snapshot env.odoo_location)).results,
                           bulk_mode := true, total_batches := 0, snapshot_updated := false },
              calls := ShopCall.location :: (prepare_adjustments env.lookup
                  (products_to_sync (compare_with_current current snapshot)
                    snapshot env.odoo_location)).calls,
              batches := [], saved := false } := by
  obtain ⟨hadj, hskip, _⟩ := prepare_adjustments_all_fail env.lookup _ hfail
  have hemp : current.isEmpty = false := by
    cases current with
    | nil => exact absurd rfl hne
    | cons a t => rfl
  unfold sync_all_inventory_bulk_with_changes
  rw [hemp, if_neg Bool.false_ne_true]
  dsimp only
  rw [if_neg hch, hloc]
  dsimp only
  rw [hadj, hskip]
  rfl

/-- Witness for C10: one modified product whose SKU is missing downstream. -/
theorem C10_witness :
    sync_all_inventory_bulk_with_changes [fixA6] (some fixSnapA5) fixEnvMiss
      = .ok { summary := { total_products := 1, successful := 0, failed := 1, skipped := 1,
                           unchanged := 0, new := 0, modified := 1, deleted := 0,
                           results := [{ success := false,
                                         message := "SKU no encontrado en Shopify",
                                         sku := some "A", quantity_updated := none,
                                         delta := none }],
                           bulk_mode := true, total_batches := 0, snapshot_updated := false },
              calls := [ShopCall.location, ShopCall.variantLookup "A"],
              batches := [], saved := false } :=
  C10_unprepared_changes_summary [fixA6] (some fixSnapA5) fixEnvMiss "L"
    (by decide) (by decide) rfl (fun q hq => Or.inl rfl)
